import Mathlib

/-!
Verification of the Nexus policy-gated tool registry and dispatch core.

This file shallowly embeds the relevant Go source of the repository:
  * `pkg/policy` — the policy engine (`Policy.Evaluate` and its helpers),
    including a faithful model of Go's `path.Match` glob matcher;
  * `pkg/config` — configuration structures, `DefaultConfig`, `applyDefaults`
    and `LoadConfig`;
  * `pkg/plugins` + `pkg/modules/plugins` — manifest loading, plugin module
    initialization, `HandleCall` and `trimOutput`;
  * `pkg/registry` — `Register` and `LoadModules`.

Go strings are modelled as `List Char` (all strings the system matches on are
ASCII, where Go's byte-wise operations and the character-wise model agree);
byte buffers are modelled as `List Nat`. Effectful operations (filesystem,
YAML parsing, subprocess spawning) are modelled by passing their externally
determined outcome explicitly as data, so every definition stays executable.
-/

namespace Nexus

/-! ## Go `path.Match` (package `path`, file `match.go`)

The matcher is transcribed loop-for-loop from the Go standard library.
Non-structural loops are driven by an explicit fuel parameter; every loop
strictly consumes its chunk/pattern/name on each iteration, so the fuel
passed at each call site (length of the consumed list plus one) is always
sufficient and the fuel-exhaustion branch is unreachable. -/

/-- The leading `for pattern[0] == '*'` loop of Go's `scanChunk`: strips
leading stars, reporting whether at least one was present. -/
def stripStars : List Char → Bool × List Char
  | [] => (false, [])
  | c :: cs => if c = '*' then (true, (stripStars cs).2) else (false, c :: cs)

/-- The `Scan` loop of Go's `scanChunk`: splits the star-stripped pattern
into the next chunk and the remaining pattern, tracking the in-range flag
exactly as the Go loop does. -/
def scanChunkBody (inrange : Bool) : List Char → List Char × List Char
  | [] => ([], [])
  | c :: cs =>
    if c = '\\' then
      match cs with
      | [] => ([c], [])
      | c2 :: cs2 =>
        let r := scanChunkBody inrange cs2
        (c :: c2 :: r.1, r.2)
    else if c = '[' then
      let r := scanChunkBody true cs
      (c :: r.1, r.2)
    else if c = ']' then
      let r := scanChunkBody false cs
      (c :: r.1, r.2)
    else if c = '*' then
      if inrange then
        let r := scanChunkBody inrange cs
        (c :: r.1, r.2)
      else ([], c :: cs)
    else
      let r := scanChunkBody inrange cs
      (c :: r.1, r.2)

/-- Go's `scanChunk`: gets the next segment of the pattern. -/
def scanChunk (pattern : List Char) : Bool × List Char × List Char :=
  let s := stripStars pattern
  let r := scanChunkBody false s.2
  (s.1, r.1, r.2)

/-- Go's `getEsc`: parses one (possibly escaped) character of a character
class; `Except.error` models `ErrBadPattern`. (Lean characters are always
valid scalar values, so the `utf8.RuneError` branch cannot arise.) -/
def getEsc : List Char → Except Unit (Char × List Char)
  | [] => .error ()
  | c :: cs =>
    if c = '-' ∨ c = ']' then .error ()
    else if c = '\\' then
      match cs with
      | [] => .error ()
      | c2 :: cs2 => if cs2 = [] then .error () else .ok (c2, cs2)
    else if cs = [] then .error () else .ok (c, cs)

/-- The `parse all ranges` loop inside Go's `matchChunk` `[` case.
`seen` is `nrange > 0`, `m` is the accumulated `match` flag; returns the
final flag and the chunk remaining after the closing `]`. Each iteration
consumes at least one character of the chunk, so fuel `chunk.length + 1`
is always sufficient. -/
def matchRanges (r : Char) : Nat → Bool → Bool → List Char → Except Unit (Bool × List Char)
  | 0, _, _, _ => .error ()
  | fuel + 1, seen, m, chunk =>
    match chunk with
    | ']' :: rest =>
      if seen then .ok (m, rest)
      else .error ()
    | chunk' =>
      match getEsc chunk' with
      | .error _ => .error ()
      | .ok (lo, chunk1) =>
        let step : Except Unit (Char × List Char) :=
          match chunk1 with
          | '-' :: rest1 => getEsc rest1
          | _ => .ok (lo, chunk1)
        match step with
        | .error _ => .error ()
        | .ok (hi, chunk2) =>
          matchRanges r fuel true (m || (decide (lo ≤ r) && decide (r ≤ hi))) chunk2

/-- Go's `matchChunk`: matches the chunk against the beginning of `s`.
`Except.error` is `ErrBadPattern`; `.ok none` is `ok = false` (match
failed); `.ok (some rest)` is a successful match leaving `rest`.
The `failed` flag mirrors the Go local of the same name: after a mismatch
the chunk is still scanned for well-formedness without consuming `s`.
Each step consumes at least one character of the chunk, so fuel
`chunk.length + 1` is always sufficient. -/
def matchChunk : Nat → Bool → List Char → List Char → Except Unit (Option (List Char))
  | 0, _, _, _ => .error ()
  | fuel + 1, failed0, chunk, s =>
    match chunk with
    | [] => if failed0 then .ok none else .ok (some s)
    | c :: rest =>
      let failed := failed0 || s.isEmpty
      if c = '[' then
        -- character class: when not failed, s is nonempty (else failed is set)
        let rs : Char × List Char :=
          if failed then (Char.ofNat 0, s)
          else
            match s with
            | x :: xs => (x, xs)
            | [] => (Char.ofNat 0, s)
        let neg : Bool × List Char :=
          match rest with
          | '^' :: t => (true, t)
          | _ => (false, rest)
        match matchRanges rs.1 (neg.2.length + 1) false false neg.2 with
        | .error _ => .error ()
        | .ok (m, chunk2) =>
          matchChunk fuel (failed || (m == neg.1)) chunk2 rs.2
      else if c = '?' then
        if failed then matchChunk fuel failed rest s
        else
          match s with
          | x :: xs => matchChunk fuel (x = '/') rest xs
          | [] => matchChunk fuel true rest []
      else if c = '\\' then
        match rest with
        | [] => .error ()
        | c2 :: rest2 =>
          -- fallthrough into the default case with the escaped character
          if failed then matchChunk fuel failed rest2 s
          else
            match s with
            | x :: xs => matchChunk fuel (failed || (c2 ≠ x)) rest2 xs
            | [] => matchChunk fuel true rest2 []
      else
        if failed then matchChunk fuel failed rest s
        else
          match s with
          | x :: xs => matchChunk fuel (failed || (c ≠ x)) rest xs
          | [] => matchChunk fuel true rest []

mutual

/-- The `Pattern` loop of Go's `Match`. Only the `matched` boolean is
retained: every error path of the Go function returns `matched = false`,
and the one caller in the repository discards the error. Each round trip
through the loop strictly shrinks `pattern.length + name.length`, so fuel
`pattern.length + name.length + 1` is always sufficient. -/
def goMatchAux : Nat → List Char → List Char → Bool
  | 0, _, _ => false
  | fuel + 1, pattern, name =>
    match pattern with
    | [] => name.isEmpty
    | _ :: _ =>
      let sc := scanChunk pattern
      let star := sc.1
      let chunk := sc.2.1
      let rest := sc.2.2
      if star && chunk.isEmpty then
        -- trailing * matches the rest of name unless it has a '/'
        !(name.contains '/')
      else
        match matchChunk (chunk.length + 1) false chunk name with
        | .error _ => false
        | .ok (some t) =>
          if t.isEmpty || !rest.isEmpty then goMatchAux fuel rest t
          else if star then starLoop fuel chunk rest name
          else false
        | .ok none =>
          if star then starLoop fuel chunk rest name
          else false

/-- The `if star` skip loop of Go's `Match`: tries the chunk again after
skipping one more (non-`'/'`) character of the name each time. -/
def starLoop : Nat → List Char → List Char → List Char → Bool
  | 0, _, _, _ => false
  | fuel + 1, chunk, rest, name =>
    match name with
    | [] => false
    | c :: ns =>
      if c = '/' then false
      else
        match matchChunk (chunk.length + 1) false chunk ns with
        | .error _ => false
        | .ok (some t) =>
          if rest.isEmpty && !t.isEmpty then starLoop fuel chunk rest ns
          else goMatchAux fuel rest t
        | .ok none => starLoop fuel chunk rest ns

end

/-- Go's `path.Match` as used by the policy engine: only the `matched`
boolean is observed (`matched, _ := path.Match(pattern, value)`); a
malformed pattern therefore simply never matches. -/
def goPathMatch (pattern value : String) : Bool :=
  goMatchAux (pattern.length + value.length + 1) pattern.toList value.toList

/-! ## Policy engine (`pkg/policy`) -/

/-- `policy.Decision`. -/
inductive GoDecision
  | allow
  | deny
  | confirm
  deriving DecidableEq, Repr

/-- `config.PolicyConfig`. -/
structure PolicyConfig where
  allowModules : List String
  denyModules : List String
  allowTools : List String
  denyTools : List String
  confirmTools : List String
  deriving DecidableEq, Repr

/-- Substring occurrence on character lists (Go's `strings.Contains`). -/
def hasSubstr : List Char → List Char → Bool
  | [], sub => sub.isEmpty
  | c :: rest, sub => List.isPrefixOf sub (c :: rest) || hasSubstr rest sub

/-- Go's `strings.ToLower` restricted to the character-wise model. -/
def goToLower (s : String) : String :=
  String.mk (s.toList.map Char.toLower)

/-- Go's `strings.Contains` on the string model. -/
def strContains (s sub : String) : Bool :=
  hasSubstr s.toList sub.toList

/-- `policy.isSensitiveTool`: the tool name contains, case-insensitively,
one of the mutating keywords. -/
def isSensitiveTool (tool : String) : Bool :=
  let lower := goToLower tool
  (["delete", "update", "scale", "write", "create", "apply", "patch"] : List String).any
    fun keyword => strContains lower keyword

/-- `policy.matchesAny`. -/
def matchesAny (patterns : List String) (value : String) : Bool :=
  patterns.any fun pattern => goPathMatch pattern value

/-- `policy.matchesAnyTool`: each pattern is tried against the bare tool
name and against the `module/tool` qualified form. -/
def matchesAnyTool (patterns : List String) (module tool : String) : Bool :=
  let qualified := module ++ "/" ++ tool
  patterns.any fun pattern => goPathMatch pattern tool || goPathMatch pattern qualified

/-- `policy.hasAllowList`. -/
def hasAllowList (cfg : PolicyConfig) : Bool :=
  !cfg.allowModules.isEmpty || !cfg.allowTools.isEmpty

/-- `policy.Policy.Evaluate`: the decision function, with the policy's
captured configuration and safe-mode flag passed explicitly. -/
def evaluate (cfg : PolicyConfig) (safeMode : Bool) (module tool : String) : GoDecision :=
  if safeMode && isSensitiveTool tool then .deny
  else if matchesAny cfg.denyModules module || matchesAnyTool cfg.denyTools module tool then .deny
  else if hasAllowList cfg && !matchesAny cfg.allowModules module
      && !matchesAnyTool cfg.allowTools module tool then .deny
  else if matchesAnyTool cfg.confirmTools module tool then .confirm
  else .allow

/-- The empty policy configuration (Go zero value). -/
def emptyPolicy : PolicyConfig :=
  { allowModules := [], denyModules := [], allowTools := [], denyTools := [], confirmTools := [] }

-- Sanity checks against the repository's own policy tests.
example : evaluate { emptyPolicy with denyTools := ["k8s_list_pods"] } false "kubernetes" "k8s_list_pods" = .deny := by decide
example : evaluate { emptyPolicy with allowTools := ["prometheus_query_metric"] } false "kubernetes" "k8s_list_pods" = .deny := by decide
example : evaluate { emptyPolicy with allowTools := ["prometheus_query_metric"] } false "prometheus" "prometheus_query_metric" = .allow := by decide
example : evaluate { emptyPolicy with confirmTools := ["kubernetes/k8s_list_pods"] } false "kubernetes" "k8s_list_pods" = .confirm := by decide
example : evaluate emptyPolicy true "kubernetes" "k8s_delete_pod" = .deny := by decide

/-! ### Policy claims -/

/-- Claim C1: for every module name, tool name, and policy configuration
(with safe-mode off or the tool name containing no mutating keyword), if the
module matches any deny-module pattern or the tool matches any deny-tool
pattern (bare or `module/tool` qualified), `Evaluate` returns Deny,
regardless of any allow or confirm pattern that also matches. -/
theorem evaluate_deny_precedence (cfg : PolicyConfig) (safeMode : Bool) (module tool : String)
    (hsafe : safeMode = false ∨ isSensitiveTool tool = false)
    (hdeny : matchesAny cfg.denyModules module = true ∨
      matchesAnyTool cfg.denyTools module tool = true) :
    evaluate cfg safeMode module tool = .deny := by
  unfold evaluate
  rcases hdeny with h | h <;> rcases hsafe with hs | hs <;> simp [hs, h]

/-- Policy configuration exercising C1: a deny-tool pattern together with
allow and confirm patterns that all match the same call. -/
def c1Cfg : PolicyConfig :=
  { allowModules := ["*"], denyModules := [], allowTools := ["*"],
    denyTools := ["k8s_list_pods"], confirmTools := ["*"] }

/-- Witness for C1: the deny pattern matches while allow and confirm
patterns also match, and the evaluation is Deny. -/
theorem evaluate_deny_precedence_witness :
    matchesAnyTool c1Cfg.denyTools "kubernetes" "k8s_list_pods" = true ∧
    matchesAny c1Cfg.allowModules "kubernetes" = true ∧
    matchesAnyTool c1Cfg.confirmTools "kubernetes" "k8s_list_pods" = true ∧
    evaluate c1Cfg false "kubernetes" "k8s_list_pods" = .deny :=
  ⟨by decide, by decide, by decide,
    evaluate_deny_precedence c1Cfg false "kubernetes" "k8s_list_pods"
      (Or.inl rfl) (Or.inr (by decide))⟩

/-- Claim C2: with safe-mode on, a tool name containing (case-insensitively)
one of the mutating keywords evaluates to Deny, even when allow patterns
explicitly match the module or the tool. -/
theorem evaluate_safe_mode_deny (cfg : PolicyConfig) (module tool : String)
    (hsens : isSensitiveTool tool = true) :
    evaluate cfg true module tool = .deny := by
  unfold evaluate
  simp [hsens]

/-- Policy configuration exercising C2: the module and the mutating tool are
both explicitly allow-listed. -/
def c2Cfg : PolicyConfig :=
  { allowModules := ["kubernetes"], denyModules := [], allowTools := ["k8s_delete_pod"],
    denyTools := [], confirmTools := [] }

/-- Witness for C2: a mutating tool name, explicitly allow-listed, still
evaluates to Deny under safe-mode. -/
theorem evaluate_safe_mode_deny_witness :
    isSensitiveTool "k8s_delete_pod" = true ∧
    matchesAnyTool c2Cfg.allowTools "kubernetes" "k8s_delete_pod" = true ∧
    matchesAny c2Cfg.allowModules "kubernetes" = true ∧
    evaluate c2Cfg true "kubernetes" "k8s_delete_pod" = .deny :=
  ⟨by decide, by decide, by decide,
    evaluate_safe_mode_deny c2Cfg "kubernetes" "k8s_delete_pod" (by decide)⟩

/-- Claim C4: once an allow-list is configured (allow-modules or allow-tools
non-empty), a (module, tool) pair matching no deny pattern, not triggering
safe-mode, and matching neither allow-modules nor allow-tools (bare or
qualified) evaluates to Deny. -/
theorem evaluate_allowlist_default_deny (cfg : PolicyConfig) (safeMode : Bool)
    (module tool : String)
    (hallow : hasAllowList cfg = true)
    (hdm : matchesAny cfg.denyModules module = false)
    (hdt : matchesAnyTool cfg.denyTools module tool = false)
    (hsafe : safeMode = false ∨ isSensitiveTool tool = false)
    (ham : matchesAny cfg.allowModules module = false)
    (hat : matchesAnyTool cfg.allowTools module tool = false) :
    evaluate cfg safeMode module tool = .deny := by
  unfold evaluate
  rcases hsafe with hs | hs <;> simp [hs, hdm, hdt, hallow, ham, hat]

/-- Policy configuration exercising C4: a non-empty allow-tools list. -/
def c4Cfg : PolicyConfig :=
  { allowModules := [], denyModules := [], allowTools := ["prometheus_query_metric"],
    denyTools := [], confirmTools := [] }

/-- Witness for C4: with an allow-list configured, an unmatched pair
evaluates to Deny. -/
theorem evaluate_allowlist_default_deny_witness :
    hasAllowList c4Cfg = true ∧
    matchesAny c4Cfg.allowModules "kubernetes" = false ∧
    matchesAnyTool c4Cfg.allowTools "kubernetes" "k8s_list_pods" = false ∧
    evaluate c4Cfg false "kubernetes" "k8s_list_pods" = .deny :=
  ⟨by decide, by decide, by decide,
    evaluate_allowlist_default_deny c4Cfg false "kubernetes" "k8s_list_pods"
      (by decide) (by decide) (by decide) (Or.inl rfl) (by decide) (by decide)⟩

-- Sanity checks of the glob matcher itself.
example : goPathMatch "k8s_*" "k8s_list_pods" = true := by decide
example : goPathMatch "*" "abc" = true := by decide
example : goPathMatch "*" "a/b" = false := by decide
example : goPathMatch "a?c" "abc" = true := by decide
example : goPathMatch "a?c" "ac" = false := by decide
example : goPathMatch "[a-c]x" "bx" = true := by decide
example : goPathMatch "[^a-c]x" "bx" = false := by decide
example : goPathMatch "[" "x" = false := by decide
example : goPathMatch "a*b" "axyb" = true := by decide
example : goPathMatch "a*b" "ax/yb" = false := by decide

/-! ## Configuration (`pkg/config`) -/

/-- `config.ServerConfig`. -/
structure ServerConfig where
  name : String
  version : String
  logLevel : String
  safeMode : Bool
  deriving DecidableEq, Repr

/-- `config.KubernetesConfig`. -/
structure KubernetesConfig where
  enabled : Bool
  kubeconfig : String
  deriving DecidableEq, Repr

/-- `config.AWSConfig`. -/
structure AWSConfig where
  enabled : Bool
  region : String
  deriving DecidableEq, Repr

/-- `config.PrometheusConfig`. -/
structure PrometheusConfig where
  enabled : Bool
  url : String
  deriving DecidableEq, Repr

/-- `config.LogsConfig` (`MaxBytes`/`MaxLines` are Go `int`s). -/
structure LogsConfig where
  enabled : Bool
  allowPaths : List String
  maxBytes : Int
  maxLines : Int
  deriving DecidableEq, Repr

/-- `config.DockerConfig`. -/
structure DockerConfig where
  enabled : Bool
  cli : String
  maxLines : Int
  deriving DecidableEq, Repr

/-- `config.PluginsConfig`. -/
structure PluginsConfig where
  enabled : Bool
  dir : String
  maxBytes : Int
  env : List String
  deriving DecidableEq, Repr

/-- `config.ModulesConfig`. -/
structure ModulesConfig where
  kubernetes : KubernetesConfig
  aws : AWSConfig
  prometheus : PrometheusConfig
  logs : LogsConfig
  docker : DockerConfig
  plugins : PluginsConfig
  deriving DecidableEq, Repr

/-- `config.NexusConfig`. -/
structure NexusConfig where
  server : ServerConfig
  modules : ModulesConfig
  policy : PolicyConfig
  deriving DecidableEq, Repr

/-- `config.DefaultConfig` (the `Policy` field is the Go zero value:
all pattern lists empty). -/
def defaultConfig : NexusConfig :=
  { server := { name := "Nexus", version := "v0.0.1", logLevel := "info", safeMode := true },
    modules :=
      { kubernetes := { enabled := true, kubeconfig := "~/.kube/config" },
        aws := { enabled := false, region := "us-east-1" },
        prometheus := { enabled := false, url := "http://localhost:9090" },
        logs := { enabled := false, allowPaths := [], maxBytes := 256 * 1024, maxLines := 200 },
        docker := { enabled := false, cli := "docker", maxLines := 200 },
        plugins := { enabled := false, dir := "plugins", maxBytes := 256 * 1024, env := [] } },
    policy := emptyPolicy }

/-- `config.applyDefaults`. -/
def applyDefaults (cfg : NexusConfig) : NexusConfig :=
  let cfg := if cfg.server.name = "" then
    { cfg with server := { cfg.server with name := "Nexus" } } else cfg
  let cfg := if cfg.server.version = "" then
    { cfg with server := { cfg.server with version := "v0.0.1" } } else cfg
  let cfg := if cfg.server.logLevel = "" then
    { cfg with server := { cfg.server with logLevel := "info" } } else cfg
  let cfg := if cfg.modules.kubernetes.kubeconfig = "" then
    { cfg with modules := { cfg.modules with
      kubernetes := { cfg.modules.kubernetes with kubeconfig := "~/.kube/config" } } } else cfg
  let cfg := if cfg.modules.aws.region = "" then
    { cfg with modules := { cfg.modules with
      aws := { cfg.modules.aws with region := "us-east-1" } } } else cfg
  let cfg := if cfg.modules.prometheus.url = "" then
    { cfg with modules := { cfg.modules with
      prometheus := { cfg.modules.prometheus with url := "http://localhost:9090" } } } else cfg
  let cfg := if cfg.modules.logs.maxBytes ≤ 0 then
    { cfg with modules := { cfg.modules with
      logs := { cfg.modules.logs with maxBytes := 256 * 1024 } } } else cfg
  let cfg := if cfg.modules.logs.maxLines ≤ 0 then
    { cfg with modules := { cfg.modules with
      logs := { cfg.modules.logs with maxLines := 200 } } } else cfg
  let cfg := if cfg.modules.docker.cli = "" then
    { cfg with modules := { cfg.modules with
      docker := { cfg.modules.docker with cli := "docker" } } } else cfg
  let cfg := if cfg.modules.docker.maxLines ≤ 0 then
    { cfg with modules := { cfg.modules with
      docker := { cfg.modules.docker with maxLines := 200 } } } else cfg
  let cfg := if cfg.modules.plugins.dir = "" then
    { cfg with modules := { cfg.modules with
      plugins := { cfg.modules.plugins with dir := "plugins" } } } else cfg
  let cfg := if cfg.modules.plugins.maxBytes ≤ 0 then
    { cfg with modules := { cfg.modules with
      plugins := { cfg.modules.plugins with maxBytes := 256 * 1024 } } } else cfg
  cfg

/-- The externally determined outcome of YAML-unmarshalling the
configuration file into the struct `yaml.Unmarshal` is given, passed to
`loadConfig` as data. `failed overlay` models a document on which
`yaml.Unmarshal` returns an error: the library (`gopkg.in/yaml.v3`) can
return a `*yaml.TypeError` after having already written every decodable
field into the struct, so the outcome carries that partial in-place
mutation as `overlay` (the identity function when nothing was decoded, as
for a document rejected by the parser itself). `parsed overlay` models a
document that decodes without error, overlaying the decoded fields. -/
inductive YamlOutcome
  | failed (overlay : NexusConfig → NexusConfig)
  | parsed (overlay : NexusConfig → NexusConfig)

/-- The error of `config.LoadConfig`: the file read failed, or the YAML
failed to unmarshal. -/
inductive LoadErr
  | fileRead
  | yamlParse
  deriving DecidableEq, Repr

/-- `config.LoadConfig`: `file = none` models an `os.ReadFile` failure
(missing file). The first component models the returned `*NexusConfig`
pointer, which may in principle be nil. On an unmarshal failure the
function returns the struct as the decoder left it — including any fields
the decoder wrote before failing — and `applyDefaults` is not applied
(it runs only on the success path). -/
def loadConfig (file : Option YamlOutcome) : Option NexusConfig × Option LoadErr :=
  let cfg := defaultConfig
  match file with
  | none => (some cfg, some .fileRead)
  | some (.failed overlay) => (some (overlay cfg), some .yamlParse)
  | some (.parsed overlay) => (some (applyDefaults (overlay cfg)), none)

/-! ### Configuration claim -/

/-- The decode outcome of a document such as `server: {name: Custom}` plus
`logs: {max_bytes: -5}` together with one type-mismatched field elsewhere:
`yaml.Unmarshal` writes the decodable fields into the struct and then
returns a `*yaml.TypeError`. -/
def typeErrOverlay : NexusConfig → NexusConfig := fun cfg =>
  { cfg with
    server := { cfg.server with name := "Custom" },
    modules := { cfg.modules with logs := { cfg.modules.logs with maxBytes := -5 } } }

/-- Counterexample to claim C10: on a document that fails `yaml.Unmarshal`
after partially decoding, `LoadConfig` returns the partially-overlaid
configuration alongside the error, with `applyDefaults` skipped — the
returned server name is "Custom" rather than "Nexus" and a byte limit is
negative, so the configuration returned alongside the error is not
populated with the full documented defaults. -/
theorem loadConfig_partial_overlay_cex :
    (loadConfig (some (.failed typeErrOverlay))).2 = some .yamlParse ∧
    ((loadConfig (some (.failed typeErrOverlay))).1.map fun cfg => cfg.server.name) =
      some "Custom" ∧
    ((loadConfig (some (.failed typeErrOverlay))).1.map fun cfg => cfg.modules.logs.maxBytes) =
      some (-5) ∧
    (loadConfig (some (.failed typeErrOverlay))).1 ≠ some defaultConfig :=
  ⟨rfl, rfl, rfl, by decide⟩

/-- Claim C10 as amended: `LoadConfig` never returns a nil configuration —
it always starts from `DefaultConfig`. On a missing file it returns the
full documented defaults (server name "Nexus", default kubeconfig, default
Prometheus URL, positive byte/line limits) alongside the error. On a
document that fails `yaml.Unmarshal`, it returns the default configuration
as partially overlaid by the decoder before the failure, with
`applyDefaults` skipped, alongside the error — so the full documented
defaults are guaranteed only on the missing-file error path (and, after
`applyDefaults`, on success). -/
theorem loadConfig_never_nil :
    (∀ file : Option YamlOutcome, (loadConfig file).1.isSome = true) ∧
    loadConfig none = (some defaultConfig, some .fileRead) ∧
    (∀ overlay, loadConfig (some (.failed overlay)) =
      (some (overlay defaultConfig), some .yamlParse)) ∧
    (∀ overlay, loadConfig (some (.parsed overlay)) =
      (some (applyDefaults (overlay defaultConfig)), none)) ∧
    defaultConfig.server.name = "Nexus" ∧
    defaultConfig.modules.kubernetes.kubeconfig = "~/.kube/config" ∧
    defaultConfig.modules.prometheus.url = "http://localhost:9090" ∧
    0 < defaultConfig.modules.logs.maxBytes ∧
    0 < defaultConfig.modules.logs.maxLines ∧
    0 < defaultConfig.modules.docker.maxLines ∧
    0 < defaultConfig.modules.plugins.maxBytes := by
  refine ⟨?_, rfl, fun overlay => rfl, fun overlay => rfl, rfl, rfl, rfl,
    by decide, by decide, by decide, by decide⟩
  intro file
  cases file with
  | none => rfl
  | some outcome => cases outcome <;> rfl

/-! ## Plugin manifests (`pkg/plugins`) and the plugin module
(`pkg/modules/plugins`) -/

/-- `plugins.Metadata`. -/
structure PluginMetadata where
  name : String
  vendor : String
  version : String
  description : String
  deriving DecidableEq, Repr

/-- `plugins.ArgSpec`. -/
structure ArgSpec where
  name : String
  type : String
  required : Bool
  description : String
  deriving DecidableEq, Repr

/-- `plugins.ToolSpec`. -/
structure ToolSpec where
  name : String
  description : String
  readOnly : Bool
  args : List ArgSpec
  deriving DecidableEq, Repr

/-- `plugins.Capabilities`. -/
structure Capabilities where
  tools : List ToolSpec
  deriving DecidableEq, Repr

/-- `plugins.Spec` (the `Env` map is modelled as an association list in a
fixed iteration order). -/
structure PluginSpec where
  command : String
  args : List String
  env : List (String × String)
  capabilities : Capabilities
  deriving DecidableEq, Repr

/-- `plugins.Manifest`. -/
structure Manifest where
  apiVersion : String
  kind : String
  metadata : PluginMetadata
  spec : PluginSpec
  deriving DecidableEq, Repr

/-- The externally determined outcome of reading and parsing the fixed-named
manifest file `nexus.yaml` inside one plugin directory: `absent` models an
`os.ReadFile` failure (no manifest), `unparsable` a present manifest that
fails `yaml.Unmarshal`, and `parsed m` a manifest decoded as `m`. -/
inductive ManifestFile
  | absent
  | unparsable
  | parsed (m : Manifest)

/-- One directory entry of the plugins directory, as seen by
`plugins.LoadManifests`. -/
structure DirEntry where
  name : String
  isDir : Bool
  manifest : ManifestFile

/-- The loop body of `plugins.LoadManifests` over the directory entries:
non-directories and directories without a readable manifest are skipped; a
present manifest that fails to parse aborts with an error; a parsed manifest
with an empty metadata name falls back to the directory name. -/
def loadManifestsFrom : List DirEntry → Except String (List Manifest)
  | [] => .ok []
  | e :: rest =>
    if !e.isDir then loadManifestsFrom rest
    else
      match e.manifest with
      | .absent => loadManifestsFrom rest
      | .unparsable => .error ("failed to parse " ++ e.name ++ "/nexus.yaml")
      | .parsed m =>
        let m := if m.metadata.name = "" then
          { m with metadata := { m.metadata with name := e.name } } else m
        match loadManifestsFrom rest with
        | .error err => .error err
        | .ok ms => .ok (m :: ms)

/-- `plugins.LoadManifests`: `dir = none` models an `os.ReadDir` failure. -/
def loadManifests (dir : Option (List DirEntry)) : Except String (List Manifest) :=
  match dir with
  | none => .error "read dir"
  | some entries => loadManifestsFrom entries

/-- `plugins.pluginTool` (a manifest paired with one of its tool specs). -/
structure PluginTool where
  manifest : Manifest
  tool : ToolSpec
  deriving DecidableEq, Repr

/-- `plugins.pluginToolName`. -/
def pluginToolName (pluginName toolName : String) : String :=
  "plugin/" ++ pluginName ++ "/" ++ toolName

/-- The state of the plugin module after `Init` (its manifest list and tool
table; the table is an association list keyed by qualified tool name). -/
structure PluginModuleState where
  manifests : List Manifest
  tools : List (String × PluginTool)
  deriving DecidableEq, Repr

/-- The inner loop of the plugin module's `Init`: registers the tools of one
manifest, failing on a duplicate qualified name. -/
def addManifestTools (m : Manifest) (acc : List (String × PluginTool)) :
    List ToolSpec → Except String (List (String × PluginTool))
  | [] => .ok acc
  | t :: rest =>
    let fullName := pluginToolName m.metadata.name t.name
    if (acc.lookup fullName).isSome then
      .error ("duplicate plugin tool name: " ++ fullName)
    else
      addManifestTools m (acc ++ [(fullName, { manifest := m, tool := t })]) rest

/-- The outer loop of the plugin module's `Init` over all manifests. -/
def addAllTools (acc : List (String × PluginTool)) :
    List Manifest → Except String (List (String × PluginTool))
  | [] => .ok acc
  | m :: rest =>
    match addManifestTools m acc m.spec.capabilities.tools with
    | .error err => .error err
    | .ok acc' => addAllTools acc' rest

/-- `plugins.Module.Init` of the plugin module: returns the resulting module
state, or the error `Init` reports. A disabled module returns immediately.
A `LoadManifests` failure is logged as a warning and `Init` returns nil
(success) with no manifests and an empty tool table. -/
def pluginInit (cfg : NexusConfig) (dir : Option (List DirEntry)) :
    Except String PluginModuleState :=
  if !cfg.modules.plugins.enabled then .ok { manifests := [], tools := [] }
  else
    match loadManifests dir with
    | .error _ => .ok { manifests := [], tools := [] }
    | .ok manifests =>
      match addAllTools [] manifests with
      | .error err => .error err
      | .ok tools => .ok { manifests := manifests, tools := tools }

/-- `trimOutput` of the plugin module, on UTF-8 byte sequences (Go slices
the string as bytes); the truncation marker is the byte sequence of
`"\n... truncated"`. -/
def truncationMarker : List Nat :=
  "\n... truncated".toList.map Char.toNat

/-- `plugins.trimOutput` (`maxBytes` is a Go `int`). -/
def trimOutput (output : List Nat) (maxBytes : Int) : List Nat :=
  if maxBytes ≤ 0 then output
  else if (output.length : Int) ≤ maxBytes then output
  else output.take maxBytes.toNat ++ truncationMarker

/-- The observable outcome of the plugin module's `HandleCall`, up to the
point where it would spawn the child process: `errResult` is a structured
tool-error result (`mcp.NewToolResultError`, with a nil Go error);
`execProcess` records that the subprocess-spawning path was reached, with
the resolved command path, argument vector, environment and the tool name
serialized into the stdin payload. -/
inductive CallOutcome
  | errResult (msg : String)
  | execProcess (cmdPath : String) (cmdArgs : List String) (env : List String)
      (payloadTool : String) (payloadArgs : List (String × String))
  deriving DecidableEq, Repr

/-- Go's `filepath.IsAbs` on the string model. -/
def isAbsPath (p : String) : Bool :=
  p.startsWith "/"

/-- `plugins.Module.HandleCall`, embedded up to the subprocess boundary.
Arguments are modelled as string pairs; serializing the
`tool`/`args` payload with `json.Marshal` cannot fail for such maps, so the
marshal-error branch does not arise. The function takes no policy input:
its result is independent of any Policy Engine decision by construction. -/
def handleCall (cfg : NexusConfig) (st : PluginModuleState) (name : String)
    (args : List (String × String)) : CallOutcome :=
  if !cfg.modules.plugins.enabled then .errResult "plugins module is disabled"
  else
    match st.tools.lookup name with
    | none => .errResult ("unknown tool: " ++ name)
    | some pt =>
      if cfg.server.safeMode && !pt.tool.readOnly then
        .errResult "tool blocked in safe mode"
      else if pt.manifest.spec.command = "" then
        .errResult "plugin command not configured"
      else
        let cmdPath :=
          if isAbsPath pt.manifest.spec.command then pt.manifest.spec.command
          else cfg.modules.plugins.dir ++ "/" ++ pt.manifest.metadata.name ++ "/"
            ++ pt.manifest.spec.command
        let cmdArgs := pt.manifest.spec.args ++ ["--nexus-plugin"]
        let env := cfg.modules.plugins.env
          ++ pt.manifest.spec.env.map (fun kv => kv.1 ++ "=" ++ kv.2)
        .execProcess cmdPath cmdArgs env pt.tool.name args

/-! ### Plugin-module claims -/

/-- The default configuration with the plugins module enabled (safe-mode is
on by default). -/
def pluginsOnCfg : NexusConfig :=
  { defaultConfig with modules := { defaultConfig.modules with
      plugins := { defaultConfig.modules.plugins with enabled := true } } }

/-- A plugins directory holding one subdirectory whose manifest is present
but fails to parse. -/
def badManifestDir : List DirEntry :=
  [{ name := "p", isDir := true, manifest := .unparsable }]

/-- Counterexample to claim C3: with the plugins module enabled and a
plugins directory containing a subdirectory whose present manifest fails to
parse, `LoadManifests` reports a parse error, yet the provider's `Init`
returns success (nil error) with empty state — the failure is not reported. -/
theorem pluginInit_parse_error_not_reported :
    loadManifests (some badManifestDir) = .error "failed to parse p/nexus.yaml" ∧
    pluginInit pluginsOnCfg (some badManifestDir) = .ok { manifests := [], tools := [] } :=
  ⟨rfl, rfl⟩

/-- Claim C3 as amended: a `LoadManifests` failure (including a manifest
that is present but fails to parse) is not a hard initialization error —
the plugin module's `Init` logs a warning and returns success with no
manifests and an empty tool table, continuing with empty state. -/
theorem pluginInit_warns_and_continues (cfg : NexusConfig) (dir : Option (List DirEntry))
    (err : String)
    (hen : cfg.modules.plugins.enabled = true)
    (herr : loadManifests dir = .error err) :
    pluginInit cfg dir = .ok { manifests := [], tools := [] } := by
  unfold pluginInit
  rw [hen, herr]
  rfl

/-- Witness for the amended C3: the unparsable-manifest directory makes
`LoadManifests` fail, and `Init` still succeeds with empty state. -/
theorem pluginInit_warns_and_continues_witness :
    pluginsOnCfg.modules.plugins.enabled = true ∧
    pluginInit pluginsOnCfg (some badManifestDir) = .ok { manifests := [], tools := [] } :=
  ⟨rfl, pluginInit_warns_and_continues pluginsOnCfg (some badManifestDir)
    "failed to parse p/nexus.yaml" rfl rfl⟩

/-- Claim C5: for a positive maximum byte count, output at most the limit
(including exactly at it) is returned unchanged; output exceeding it by one
byte or more is cut to exactly the first `maxBytes` bytes with the
truncation marker appended. -/
theorem trimOutput_boundary (output : List Nat) (maxBytes : Int)
    (hpos : 0 < maxBytes) :
    ((output.length : Int) ≤ maxBytes → trimOutput output maxBytes = output) ∧
    (maxBytes < (output.length : Int) →
      trimOutput output maxBytes = output.take maxBytes.toNat ++ truncationMarker) := by
  unfold trimOutput
  constructor
  · intro hle
    rw [if_neg (by omega), if_pos hle]
  · intro hgt
    rw [if_neg (by omega), if_neg (by omega)]

/-- Witness for C5: a three-byte output at a limit of three is untouched;
at a limit of two it becomes the first two bytes plus the marker. -/
theorem trimOutput_boundary_witness :
    trimOutput [1, 2, 3] 3 = [1, 2, 3] ∧
    trimOutput [1, 2, 3] 2 = [1, 2] ++ truncationMarker :=
  ⟨(trimOutput_boundary [1, 2, 3] 3 (by decide)).1 (by decide),
    (trimOutput_boundary [1, 2, 3] 2 (by decide)).2 (by decide)⟩

/-- Claim C9: a zero or negative maximum byte count disables truncation
entirely — the output is returned completely unchanged. -/
theorem trimOutput_nonpositive (output : List Nat) (maxBytes : Int)
    (hnp : maxBytes ≤ 0) :
    trimOutput output maxBytes = output := by
  unfold trimOutput
  rw [if_pos hnp]

/-- Witness for C9: zero and negative limits leave the output unchanged. -/
theorem trimOutput_nonpositive_witness :
    trimOutput [7, 8, 9] 0 = [7, 8, 9] ∧ trimOutput [7, 8, 9] (-5) = [7, 8, 9] :=
  ⟨trimOutput_nonpositive [7, 8, 9] 0 (by decide),
    trimOutput_nonpositive [7, 8, 9] (-5) (by decide)⟩

/-- Claim C7: with global safe-mode on and the target tool not marked
read-only, the plugin module's `HandleCall` returns a structured refusal
(`errResult`) and therefore never reaches the subprocess-spawning
(`execProcess`) outcome; `handleCall` takes no policy input, so this is
independent of any Policy Engine decision. -/
theorem handleCall_safe_mode_refusal (cfg : NexusConfig) (st : PluginModuleState)
    (name : String) (args : List (String × String)) (pt : PluginTool)
    (hsafe : cfg.server.safeMode = true)
    (hlookup : st.tools.lookup name = some pt)
    (hro : pt.tool.readOnly = false) :
    ∃ msg, handleCall cfg st name args = .errResult msg := by
  cases hen : cfg.modules.plugins.enabled with
  | false =>
    exact ⟨"plugins module is disabled", by unfold handleCall; rw [hen]; rfl⟩
  | true =>
    refine ⟨"tool blocked in safe mode", ?_⟩
    unfold handleCall
    rw [hen, hlookup]
    simp [hsafe, hro]

/-- A sample plugin tool, not marked read-only. -/
def demoTool : ToolSpec :=
  { name := "do_thing", description := "a mutating demo tool", readOnly := false, args := [] }

/-- A sample plugin manifest exposing `demoTool`. -/
def demoManifest : Manifest :=
  { apiVersion := "nexus/v1", kind := "Plugin",
    metadata := { name := "demo", vendor := "acme", version := "1.0", description := "" },
    spec := { command := "./bin/run", args := [], env := [],
              capabilities := { tools := [demoTool] } } }

/-- The plugin module state after loading `demoManifest`. -/
def demoState : PluginModuleState :=
  { manifests := [demoManifest],
    tools := [(pluginToolName "demo" "do_thing",
      { manifest := demoManifest, tool := demoTool })] }

/-- Witness for C7: under safe-mode, calling the non-read-only demo tool is
refused. -/
theorem handleCall_safe_mode_refusal_witness :
    pluginsOnCfg.server.safeMode = true ∧
    demoState.tools.lookup (pluginToolName "demo" "do_thing") =
      some { manifest := demoManifest, tool := demoTool } ∧
    ∃ msg, handleCall pluginsOnCfg demoState (pluginToolName "demo" "do_thing") [] =
      .errResult msg :=
  ⟨rfl, by decide,
    handleCall_safe_mode_refusal pluginsOnCfg demoState (pluginToolName "demo" "do_thing") []
      { manifest := demoManifest, tool := demoTool } rfl (by decide) rfl⟩

/-! ## Registry (`pkg/registry`) -/

/-- A registered capability provider, as the registry observes it:
`toggleable` records whether the concrete type implements the optional
`Enabled(cfg)` interface (the Go type assertion); `enabled` is its
`Enabled` method and `initErr` the error result of its `Init`. -/
structure GoModule where
  toggleable : Bool
  enabled : NexusConfig → Bool
  initErr : NexusConfig → Option String

/-- The registry's package-level state: the module map (an association
list keyed by module name), the `sync.Once` barrier, and an instrumentation
log of the names whose `Init` has been invoked, in invocation order. -/
structure RegState where
  modules : List (String × GoModule)
  loadDone : Bool
  initLog : List String

/-- `registry.Register`: inserts into the map, or panics (the second
component carries the panic message) if the name is already present,
leaving the map unchanged. -/
def register (st : RegState) (name : String) (mod : GoModule) :
    RegState × Option String :=
  if (st.modules.lookup name).isSome then
    (st, some ("module already registered: " ++ name))
  else
    ({ st with modules := st.modules ++ [(name, mod)] }, none)

/-- The skip condition of `LoadModules`: the module implements `Enabled`
and reports itself disabled under the configuration. -/
def skipsInit (mod : GoModule) (cfg : NexusConfig) : Bool :=
  mod.toggleable && !(mod.enabled cfg)

/-- The `loadOnce.Do` body of `registry.LoadModules`: runs `Init` on every
non-skipped module in order, stopping at the first failure. Returns the
names whose `Init` was invoked and the (wrapped) first error, if any. -/
def runInitPass (cfg : NexusConfig) : List (String × GoModule) → List String × Option String
  | [] => ([], none)
  | (name, mod) :: rest =>
    if skipsInit mod cfg then runInitPass cfg rest
    else
      match mod.initErr cfg with
      | some err => ([name], some ("failed to init module " ++ name ++ ": " ++ err))
      | none =>
        let r := runInitPass cfg rest
        (name :: r.1, r.2)

/-- The second loop of `registry.LoadModules`: the currently active
(non-skipped) subset of the registered modules, recomputed on every call. -/
def activeList (cfg : NexusConfig) (mods : List (String × GoModule)) :
    List (String × GoModule) :=
  mods.filter fun p => !(skipsInit p.2 cfg)

/-- `registry.LoadModules`: on the first call only, runs the init pass
(marking the once-barrier done even when an `Init` fails, since `loadErr`
is a per-call local in the Go source); every call recomputes and returns
the active subset, except that a first-call `Init` failure returns the
wrapped error instead. -/
def loadModules (st : RegState) (cfg : NexusConfig) :
    RegState × Except String (List (String × GoModule)) :=
  if st.loadDone then (st, .ok (activeList cfg st.modules))
  else
    match (runInitPass cfg st.modules).2 with
    | some err =>
      ({ st with loadDone := true, initLog := st.initLog ++ (runInitPass cfg st.modules).1 },
        .error err)
    | none =>
      ({ st with loadDone := true, initLog := st.initLog ++ (runInitPass cfg st.modules).1 },
        .ok (activeList cfg st.modules))

/-! ### Registry claims -/

/-- Appending a binding for a key that an association list does not contain
makes it the lookup result for that key. -/
theorem lookup_append_of_none {α β : Type} [BEq α] [LawfulBEq α]
    (l : List (α × β)) (a : α) (v : β) (h : l.lookup a = none) :
    (l ++ [(a, v)]).lookup a = some v := by
  induction l with
  | nil => simp [List.lookup]
  | cons p rest ih =>
    obtain ⟨k, w⟩ := p
    simp only [List.cons_append, List.lookup] at h ⊢
    cases hk : (a == k) with
    | true => simp [hk] at h
    | false => simp only [hk] at h ⊢; exact ih h

/-- Claim C8: a second `Register` under an already-present module name
panics (a non-recoverable failure, carried in the second component) and
leaves the map unchanged, so the first registration's entry survives and
two providers never coexist under one module name. -/
theorem register_duplicate_rejected (st : RegState) (name : String) (m1 m2 : GoModule)
    (hfresh : st.modules.lookup name = none) :
    (register st name m1).2 = none ∧
    (register (register st name m1).1 name m2).2 =
      some ("module already registered: " ++ name) ∧
    (register (register st name m1).1 name m2).1 = (register st name m1).1 ∧
    (register (register st name m1).1 name m2).1.modules.lookup name = some m1 := by
  have h1 : register st name m1 =
      ({ st with modules := st.modules ++ [(name, m1)] }, none) := by
    unfold register
    rw [hfresh]
    rfl
  have h2 : (st.modules ++ [(name, m1)]).lookup name = some m1 :=
    lookup_append_of_none st.modules name m1 hfresh
  rw [h1]
  refine ⟨rfl, ?_, ?_, ?_⟩ <;> unfold register <;> simp [h2]

/-- The registry state at process start: empty map, once-barrier unset. -/
def emptyReg : RegState := { modules := [], loadDone := false, initLog := [] }

/-- A sample provider gated on the kubernetes enablement flag. -/
def kubernetesModule : GoModule :=
  { toggleable := true, enabled := fun cfg => cfg.modules.kubernetes.enabled,
    initErr := fun _ => none }

/-- A second, always-on provider competing for the same module name. -/
def rivalModule : GoModule :=
  { toggleable := false, enabled := fun _ => true, initErr := fun _ => none }

/-- Witness for C8: registering "kubernetes" twice panics on the second
call and keeps the first provider's entry. -/
theorem register_duplicate_rejected_witness :
    (register emptyReg "kubernetes" kubernetesModule).2 = none ∧
    (register (register emptyReg "kubernetes" kubernetesModule).1 "kubernetes" rivalModule).2 =
      some ("module already registered: " ++ "kubernetes") ∧
    (register (register emptyReg "kubernetes" kubernetesModule).1 "kubernetes" rivalModule).1 =
      (register emptyReg "kubernetes" kubernetesModule).1 ∧
    (register (register emptyReg "kubernetes" kubernetesModule).1 "kubernetes"
        rivalModule).1.modules.lookup "kubernetes" = some kubernetesModule :=
  register_duplicate_rejected emptyReg "kubernetes" kubernetesModule rivalModule rfl

/-- A toggleable provider that is enabled but whose `Init` fails. -/
def failingModule : GoModule :=
  { toggleable := true, enabled := fun _ => true, initErr := fun _ => some "boom" }

/-- A registry holding only `failingModule`, before any load. -/
def failingReg : RegState :=
  { modules := [("m", failingModule)], loadDone := false, initLog := [] }

/-- Counterexample to claim C6: when an enabled provider's `Init` fails,
the first `LoadModules` call returns an error (no active-provider list)
while the second call — the once-barrier already consumed, `loadErr` being
a per-call local — returns the provider as active; the two calls do not
return lists with identical contents even though the configuration is
unchanged (and `Init` ran exactly once, as the log shows). -/
theorem loadModules_twice_cex :
    (loadModules failingReg defaultConfig).2 = .error "failed to init module m: boom" ∧
    (loadModules (loadModules failingReg defaultConfig).1 defaultConfig).2 =
      .ok [("m", failingModule)] ∧
    (loadModules (loadModules failingReg defaultConfig).1 defaultConfig).1.initLog = ["m"] :=
  ⟨rfl, rfl, rfl⟩

/-- If the init pass reports no error, it initialized exactly the active
(non-skipped) modules, in order. -/
theorem runInitPass_ok_log (cfg : NexusConfig) (mods : List (String × GoModule))
    (hok : (runInitPass cfg mods).2 = none) :
    (runInitPass cfg mods).1 = (activeList cfg mods).map Prod.fst := by
  induction mods with
  | nil => rfl
  | cons p rest ih =>
    obtain ⟨name, mod⟩ := p
    cases hskip : skipsInit mod cfg with
    | true =>
      have hok' : (runInitPass cfg rest).2 = none := by
        simpa [runInitPass, hskip] using hok
      simp [runInitPass, activeList, List.filter_cons, hskip, ih hok']
    | false =>
      cases hinit : mod.initErr cfg with
      | some err =>
        exfalso
        simp [runInitPass, hskip, hinit] at hok
      | none =>
        have hok' : (runInitPass cfg rest).2 = none := by
          simpa [runInitPass, hskip, hinit] using hok
        simp [runInitPass, activeList, List.filter_cons, hskip, hinit, ih hok']

/-- In an association list whose keys are pairwise distinct, a key
determines its value. -/
theorem assoc_mem_unique {α β : Type} (l : List (α × β))
    (hnodup : (l.map Prod.fst).Nodup) (a : α) (b1 b2 : β)
    (h1 : (a, b1) ∈ l) (h2 : (a, b2) ∈ l) : b1 = b2 := by
  induction l with
  | nil => cases h1
  | cons p rest ih =>
    rw [List.map_cons, List.nodup_cons] at hnodup
    rcases List.mem_cons.mp h1 with e1 | m1
    · rcases List.mem_cons.mp h2 with e2 | m2
      · rw [← e1] at e2; exact (Prod.mk.injEq _ _ _ _ |>.mp e2).2.symm
      · exfalso
        apply hnodup.1
        rw [← e1]
        exact List.mem_map.mpr ⟨(a, b2), m2, rfl⟩
    · rcases List.mem_cons.mp h2 with e2 | m2
      · exfalso
        apply hnodup.1
        rw [← e2]
        exact List.mem_map.mpr ⟨(a, b1), m1, rfl⟩
      · exact ih hnodup.2 m1 m2

/-- An active (non-skipped) module's name occurs exactly once among the
active names, when registered names are pairwise distinct. -/
theorem count_active_enabled (cfg : NexusConfig) (mods : List (String × GoModule))
    (hnodup : (mods.map Prod.fst).Nodup) (name : String) (mod : GoModule)
    (hmem : (name, mod) ∈ mods) (hen : skipsInit mod cfg = false) :
    ((activeList cfg mods).map Prod.fst).count name = 1 := by
  have hsub : List.Sublist ((activeList cfg mods).map Prod.fst) (mods.map Prod.fst) :=
    (List.filter_sublist mods).map Prod.fst
  have hnd : ((activeList cfg mods).map Prod.fst).Nodup := hnodup.sublist hsub
  have hmem' : name ∈ (activeList cfg mods).map Prod.fst := by
    refine List.mem_map.mpr ⟨(name, mod), ?_, rfl⟩
    exact List.mem_filter.mpr ⟨hmem, by simp [hen]⟩
  exact List.count_eq_one_of_mem hnd hmem'

/-- A skipped (disabled) module's name does not occur among the active
names, when registered names are pairwise distinct. -/
theorem count_active_disabled (cfg : NexusConfig) (mods : List (String × GoModule))
    (hnodup : (mods.map Prod.fst).Nodup) (name : String) (mod : GoModule)
    (hmem : (name, mod) ∈ mods) (hdis : skipsInit mod cfg = true) :
    ((activeList cfg mods).map Prod.fst).count name = 0 := by
  rw [List.count_eq_zero]
  intro hmem'
  obtain ⟨q, hin, heq⟩ := List.mem_map.mp hmem'
  obtain ⟨n2, m2⟩ := q
  cases heq
  have hin' := List.mem_filter.mp hin
  have hsame : m2 = mod := assoc_mem_unique mods hnodup n2 m2 mod hin'.1 hmem
  rw [hsame] at hin'
  simp [hdis] at hin'

/-- Claim C6 as amended: provided every enabled provider's `Init` succeeds,
calling `LoadModules` twice with the same configuration returns the same
active-provider list both times, and in total invokes `Init` exactly once
for each provider not reporting itself disabled and never for a provider
reporting itself disabled (registered names being pairwise distinct). -/
theorem loadModules_twice (st : RegState) (cfg : NexusConfig)
    (hdone : st.loadDone = false) (hlog : st.initLog = [])
    (hok : (runInitPass cfg st.modules).2 = none)
    (hnodup : (st.modules.map Prod.fst).Nodup) :
    (loadModules st cfg).2 = .ok (activeList cfg st.modules) ∧
    (loadModules (loadModules st cfg).1 cfg).2 = .ok (activeList cfg st.modules) ∧
    (loadModules (loadModules st cfg).1 cfg).1.initLog =
      (activeList cfg st.modules).map Prod.fst ∧
    (∀ name mod, (name, mod) ∈ st.modules → skipsInit mod cfg = false →
      (loadModules (loadModules st cfg).1 cfg).1.initLog.count name = 1) ∧
    (∀ name mod, (name, mod) ∈ st.modules → skipsInit mod cfg = true →
      (loadModules (loadModules st cfg).1 cfg).1.initLog.count name = 0) := by
  have h1 : loadModules st cfg =
      ({ modules := st.modules, loadDone := true,
         initLog := st.initLog ++ (runInitPass cfg st.modules).1 },
        .ok (activeList cfg st.modules)) := by
    unfold loadModules
    rw [hdone, hok]
    rfl
  have hlog1 : (runInitPass cfg st.modules).1 = (activeList cfg st.modules).map Prod.fst :=
    runInitPass_ok_log cfg st.modules hok
  rw [h1]
  refine ⟨rfl, rfl, ?_, ?_, ?_⟩
  · simp only [loadModules, if_pos, hlog, hlog1, List.nil_append]
  · intro name mod hmem hen
    simp only [loadModules, if_pos, hlog, hlog1, List.nil_append]
    exact count_active_enabled cfg st.modules hnodup name mod hmem hen
  · intro name mod hmem hdis
    simp only [loadModules, if_pos, hlog, hlog1, List.nil_append]
    exact count_active_disabled cfg st.modules hnodup name mod hmem hdis

/-- A toggleable provider that is enabled and initializes successfully. -/
def enabledModule : GoModule :=
  { toggleable := true, enabled := fun _ => true, initErr := fun _ => none }

/-- A toggleable provider that reports itself disabled. -/
def disabledModule : GoModule :=
  { toggleable := true, enabled := fun _ => false, initErr := fun _ => none }

/-- A registry with one enabled and one disabled provider, before any
load. -/
def twoModReg : RegState :=
  { modules := [("a", enabledModule), ("d", disabledModule)],
    loadDone := false, initLog := [] }

/-- Witness for the amended C6: two loads return the same list, the enabled
provider's `Init` ran exactly once, the disabled one's never. -/
theorem loadModules_twice_witness :
    (loadModules twoModReg defaultConfig).2 =
      .ok (activeList defaultConfig twoModReg.modules) ∧
    (loadModules (loadModules twoModReg defaultConfig).1 defaultConfig).2 =
      .ok (activeList defaultConfig twoModReg.modules) ∧
    (loadModules (loadModules twoModReg defaultConfig).1 defaultConfig).1.initLog.count "a" = 1 ∧
    (loadModules (loadModules twoModReg defaultConfig).1 defaultConfig).1.initLog.count "d" = 0 := by
  have h := loadModules_twice twoModReg defaultConfig rfl rfl rfl (by decide)
  exact ⟨h.1, h.2.1,
    h.2.2.2.1 "a" enabledModule (List.mem_cons_self _ _) rfl,
    h.2.2.2.2 "d" disabledModule (List.mem_cons_of_mem _ (List.mem_cons_self _ _)) rfl⟩

end Nexus
